import Mathlib

/- Shallow embedding of the unicorn lambda-api scripts:
   src/lambda-api/tests/stress.py, src/lambda-api/tests/ruok.py and
   src/lambda-api/runtimes/build_env.py.

   Python floats are modelled as exact rationals, decoded JSON values by the
   inductive type Json below, and the result of the network round trip
   (requests.post followed by json.loads) by an Except-valued environment,
   since the remote service is an external collaborator.  Exceptions are
   modelled by Except String; the exact message text chosen for a raised
   lookup error is a modelling token, carried around verbatim exactly as the
   code carries the caught exception. -/

/-- JSON values as produced by json.loads (duplicate keys cannot survive
parsing, so an association list is faithful). -/
inductive Json where
  | str (s : String)
  | num (n : Int)
  | boolean (b : Bool)
  | null
  | arr (elems : List Json)
  | obj (fields : List (String × Json))

/-- Python subscript lookup data[k]: raises TypeError on a non-dict and
KeyError on a missing key. -/
def getKey : Json → String → Except String Json
  | .obj fields, k =>
      match fields.lookup k with
      | some v => .ok v
      | none => .error ("KeyError: " ++ k)
  | _, _ => .error "TypeError: not a dict"

/-- The chained lookup data['output']['run']['stdout'] appearing in both
stress.execute_request and ruok.send_req. -/
def getStdout (data : Json) : Except String Json :=
  match getKey data "output" with
  | .error e => .error e
  | .ok o =>
    match getKey o "run" with
    | .error e => .error e
    | .ok r => getKey r "stdout"

/-- Python == between a decoded JSON value and a Python string: true exactly
when the value is a string with the same characters (a number, bool, None,
list or dict never equals a string in Python). -/
def pyEqStr : Json → String → Bool
  | .str t, s => t == s
  | _, _ => false

/-- Python != between a decoded JSON value and a Python string. -/
def pyNeStr (v : Json) (s : String) : Bool := !(pyEqStr v s)

/-- Python str() coercion of a decoded JSON value (container reprs are
abbreviated: no claim exercises them). -/
def jsonToStr : Json → String
  | .str s => s
  | .num n => toString n
  | .boolean b => if b then "True" else "False"
  | .null => "None"
  | .arr _ => "<list>"
  | .obj _ => "<dict>"

/-- Python data.get(k): lookup returning None when the key is absent; raises
AttributeError when data is not a dict. -/
def dictGet : Json → String → Except String (Option Json)
  | .obj fields, k => .ok (fields.lookup k)
  | _, _ => .error "AttributeError: not a dict"

/-- Python == between the result of .get (a value or None) and a string. -/
def optEqStr : Option Json → String → Bool
  | some v, s => pyEqStr v s
  | none, _ => false

/-- Environment of one stress.execute_request call: net is the combined
result of requests.post and json.loads (the raised exception's text, or the
decoded body); tOk is the value of time.time() - start_time read inside the
try block and tErr the value read inside the except handler when an
exception is raised. -/
structure ReqEnv where
  net : Except String Json
  tOk : ℚ
  tErr : ℚ

/-- One print call issued by stress.execute_request: the result line carries
the mismatch marker, the request number, data['status'], the observed
stdout, the expected message and the elapsed time; the failure line carries
the request number, the exception text and the elapsed time. -/
inductive PrintedLine where
  | result (marker : String) (requestNum : Nat) (status : Json) (out : Json)
      (expected : Nat) (time : ℚ)
  | failure (requestNum : Nat) (err : String) (time : ℚ)

/-- The request number shown in a printed line. -/
def PrintedLine.requestNum : PrintedLine → Nat
  | .result _ rn _ _ _ _ => rn
  | .failure rn _ _ => rn

/-- The mismatch marker of a printed line (empty on the failure line, which
never carries one). -/
def PrintedLine.marker : PrintedLine → String
  | .result m _ _ _ _ _ => m
  | .failure _ _ _ => ""

/-- Value of one completed future of stress.execute_request: ret is the
Python return value (the elapsed time) and line the print call it issued. -/
structure ExecAttempt where
  ret : ℚ
  line : PrintedLine

/-- The try block of stress.execute_request: decode the response, measure
elapsed_time, extract data['output']['run']['stdout'], compute the mismatch
marker by out != str(msg), then print (the f-string also evaluates
data['status'], which can itself raise) and return elapsed_time.  Any raised
exception surfaces as the .error case. -/
def tryBody (request_num msg : Nat) (env : ReqEnv) : Except String ExecAttempt :=
  match env.net with
  | .error e => .error e
  | .ok data =>
    match getStdout data with
    | .error e => .error e
    | .ok out =>
      let marker := if pyNeStr out (toString msg) then "[!] " else ""
      match getKey data "status" with
      | .error e => .error e
      | .ok status =>
        .ok { ret := env.tOk,
              line := .result marker request_num status out msg env.tOk }

/-- stress.execute_request: run the try block; any exception is caught by
the bare except, which prints the error line with the exception text and
returns the elapsed time measured in the handler. -/
def execute_request (request_num msg : Nat) (env : ReqEnv) : ExecAttempt :=
  match tryBody request_num msg env with
  | .ok a => a
  | .error e => { ret := env.tErr, line := .failure request_num e env.tErr }

/-- The futures list built by stress.run_in_parallel:
executor.submit(execute_request, i, i) for i in range(1, num + 1), in
submission order; each pair is the (request_num, msg) argument pair of one
submitted call. -/
def futures (num : Nat) : List (Nat × Nat) :=
  (List.range num).map fun k => (k + 1, k + 1)

/-- Python max() over a list of floats (raises on an empty list; the [] case
below is unreachable under the positive-count hypotheses of the theorems). -/
def pymax : List ℚ → ℚ
  | [] => 0
  | [x] => x
  | x :: y :: t => max x (pymax (y :: t))

/-- Python min() over a list of floats (same remark as pymax on []). -/
def pymin : List ℚ → ℚ
  | [] => 0
  | [x] => x
  | x :: y :: t => min x (pymin (y :: t))

/-- Everything stress.run_in_parallel computes: the completed futures (in
the order of the futures list, which is how the results are read), the
elapsed_times list, and the quantities of the two printed summary lines. -/
structure RunResult where
  num : Nat
  ts : Nat
  outcomes : List ExecAttempt
  elapsed_times : List ℚ
  total_elapsed_time : ℚ
  mean_time : ℚ
  max_time : ℚ
  min_time : ℚ

/-- stress.run_in_parallel.  envs i is the network environment seen by
request i; total is time.time() - start_time after the pool joins;
completion stands for the order in which the futures happen to complete
inside concurrent.futures.wait - the results are read from the futures list
itself, so it is never consulted; ts is the max_workers bound of the
ThreadPoolExecutor, which affects timing only, and timing is already
carried by the environment. -/
def run_in_parallel (num ts : Nat) (envs : Nat → ReqEnv) (total : ℚ)
    (completion : List Nat) : RunResult :=
  let attempts := (futures num).map fun p => execute_request p.1 p.2 (envs p.1)
  let elapsed_times := attempts.map ExecAttempt.ret
  { num := num, ts := ts, outcomes := attempts, elapsed_times := elapsed_times,
    total_elapsed_time := total,
    mean_time := elapsed_times.sum / (num : ℚ),
    max_time := pymax elapsed_times,
    min_time := pymin elapsed_times }

/-- The content of the two final summary lines printed by run_in_parallel:
request count, thread count, total elapsed, mean, max and min times.  This
is everything the printed summary shows. -/
def summaryOf (r : RunResult) : Nat × Nat × ℚ × ℚ × ℚ × ℚ :=
  (r.num, r.ts, r.total_elapsed_time, r.mean_time, r.max_time, r.min_time)

/-- Number of per-request printed lines carrying the mismatch marker. -/
def mismatchCount (r : RunResult) : Nat :=
  r.outcomes.countP fun a => a.line.marker == "[!] "

/-- Outcome of ruok.send_req, read off from which print statement runs:
the success print, the "Request failed" print showing data['status'], or
the except handler's print showing the exception text. -/
inductive RuokOutcome where
  | success (out : Json)
  | failed (status : Json)
  | caught (err : String)

/-- The try block of ruok.send_req: env is the combined result of
requests.post and json.loads - a raised exception's text, or the HTTP
status code together with the decoded body.  The branch condition is
response.status_code == 200 and data.get('status') == 'successful'; the
success print evaluates data['output']['run']['stdout'] and the failure
print evaluates data['status'], either of which can itself raise. -/
def tryRuok (env : Except String (Nat × Json)) : Except String RuokOutcome :=
  match env with
  | .error e => .error e
  | .ok (code, data) =>
    match dictGet data "status" with
    | .error e => .error e
    | .ok stO =>
      if (code == 200) && optEqStr stO "successful" then
        match getStdout data with
        | .error e => .error e
        | .ok out => .ok (.success out)
      else
        match getKey data "status" with
        | .error e => .error e
        | .ok st => .ok (.failed st)

/-- ruok.send_req: run the try block; any exception is caught by the bare
except, which prints the error message. -/
def send_req (env : Except String (Nat × Json)) : RuokOutcome :=
  match tryRuok env with
  | .ok r => r
  | .error e => .caught e

/-- pat matches at the head of s (character-wise). -/
def subAt : List Char → List Char → Bool
  | [], _ => true
  | _ :: _, [] => false
  | c :: cs, d :: ds => c == d && subAt cs ds

/-- Index of the first occurrence of pat in s, if any. -/
def findIdx0 (pat : List Char) : List Char → Option Nat
  | [] => if subAt pat [] then some 0 else none
  | s@(_ :: t) => if subAt pat s then some 0 else (findIdx0 pat t).map (· + 1)

/-- Python str.find: index of the first occurrence of pat, or -1. -/
def pyFind (s pat : List Char) : Int :=
  match findIdx0 pat s with
  | some i => (i : Int)
  | none => -1

/-- Effective cut point of a Python slice bound i on a string of length len:
negative bounds count from the end, and bounds are clamped into [0, len]. -/
def pyIdx (len : Nat) (i : Int) : Nat :=
  if i < 0 then ((len : Int) + i).toNat else min len i.toNat

/-- Python sep.join(parts). -/
def joinSep (sep : List Char) : List (List Char) → List Char
  | [] => []
  | [x] => x
  | x :: y :: t => x ++ sep ++ joinSep sep (y :: t)

/-- Python str.endswith: the characters from length minus pattern-length
onward equal the pattern (false whenever the pattern is longer, since the
lengths then differ). -/
def pyEndsWith (s pat : List Char) : Bool :=
  s.drop (s.length - pat.length) == pat

/-- The nix_pkgs_list accumulation loop of build_env.generate_nix_file:
every directory entry whose name ends in .yaml contributes its parsed
nix_pkgs field (runtime_data.get('nix_pkgs', [])), in listing order.  An
entry is modelled as its file name together with that parsed field. -/
def nixPkgsList (files : List (List Char × Option (List (List Char)))) :
    List (List Char) :=
  ((files.filter fun f => pyEndsWith f.1 (".yaml".toList)).map
    fun f => f.2.getD []).flatten

/-- build_env.generate_nix_file on the content of the template file and the
directory listing: find '%s', join the package names with '\n    ', and
write template[:pos] + joined + template[pos + 2:] with Python slice
semantics (so a find miss, pos = -1, slices template[:-1] and
template[1:]). -/
def generate_nix_file (template : List Char)
    (files : List (List Char × Option (List (List Char)))) : List Char :=
  let placeholder_position := pyFind template ['%', 's']
  let nix_pkgs_str := joinSep ("\n    ".toList) (nixPkgsList files)
  template.take (pyIdx template.length placeholder_position) ++ nix_pkgs_str ++
    template.drop (pyIdx template.length (placeholder_position + 2))

/-- Follows the spec's words for the substitution step, to be compared with
generate_nix_file: the text before the marker, then the newline-joined
package names, then the text after the marker. -/
def substitute_spec (pre suf : List Char) (pkgs : List (List Char)) : List Char :=
  pre ++ joinSep ['\n'] pkgs ++ suf

/-- Follows the spec's words for the verifier, to be compared with the
comparison in execute_request: both the observed stdout and the expected
value coerced to their string representation, compared for equality. -/
def verify_spec (expected : Nat) (out : Json) : Bool :=
  jsonToStr out == toString expected

/-- A response body with stdout s and status "successful". -/
def mkResp (s : String) : Json :=
  .obj [("status", .str "successful"),
        ("output", .obj [("run", .obj [("stdout", .str s)])])]

/-- Environment of a request i answered correctly: stdout echoes str(i). -/
def env_ok (i : Nat) : ReqEnv :=
  { net := .ok (mkResp (toString i)), tOk := 2, tErr := 0 }

/-- Environment answered with status successful but wrong stdout. -/
def env_mismatch : ReqEnv :=
  { net := .ok (mkResp "zzz"), tOk := 2, tErr := 0 }

/-- Environment whose network call raises after 5 seconds. -/
def env_fail5 : ReqEnv :=
  { net := .error "ConnectionError", tOk := 0, tErr := 5 }

/-- Environment answered correctly after 5 seconds. -/
def env_ok5 : ReqEnv :=
  { net := .ok (mkResp "1"), tOk := 5, tErr := 0 }

/-- Environment whose response carries a JSON number 5 in the stdout field. -/
def env_num_stdout : ReqEnv :=
  { net := .ok (.obj [("status", .str "successful"),
        ("output", .obj [("run", .obj [("stdout", .num 5)])])]),
    tOk := 1, tErr := 0 }

/-- A batch of environments in which request 2 suffers a transport failure
and every other request is answered correctly. -/
def envs_mixed : Nat → ReqEnv
  | 2 => env_fail5
  | i => env_ok i

/-- Every .ok result of the try block is the record built at its end: the
success line, at the try-block elapsed time, carrying the submitted request
number and message. -/
theorem tryBody_ok_shape {rn msg : Nat} {env : ReqEnv} {a : ExecAttempt}
    (h : tryBody rn msg env = .ok a) :
    ∃ data out status, env.net = .ok data ∧ getStdout data = .ok out ∧
      getKey data "status" = .ok status ∧
      a = { ret := env.tOk,
            line := .result (if pyNeStr out (toString msg) then "[!] " else "")
              rn status out msg env.tOk } := by
  obtain ⟨net, t1, t2⟩ := env
  cases net with
  | error e => simp [tryBody] at h
  | ok data =>
    simp only [tryBody] at h
    cases hs : getStdout data with
    | error e => simp [hs] at h
    | ok out =>
      simp only [hs] at h
      cases hst : getKey data "status" with
      | error e => simp [hst] at h
      | ok status =>
        simp only [hst, Except.ok.injEq] at h
        exact ⟨data, out, status, rfl, hs, hst, h.symm⟩

/-- The printed line of a completed request always shows the request number
it was submitted with, on the success path and on the failure path alike. -/
theorem execute_request_requestNum (rn msg : Nat) (env : ReqEnv) :
    (execute_request rn msg env).line.requestNum = rn := by
  unfold execute_request
  cases h : tryBody rn msg env with
  | error e => rfl
  | ok a =>
    obtain ⟨data, out, status, -, -, -, ha⟩ := tryBody_ok_shape h
    subst ha; rfl

/-- The outcomes list of a run is the futures list mapped through
execute_request. -/
theorem run_outcomes_eq (num ts : Nat) (envs : Nat → ReqEnv) (total : ℚ)
    (completion : List Nat) :
    (run_in_parallel num ts envs total completion).outcomes
      = (List.range num).map fun k =>
          execute_request (k + 1) (k + 1) (envs (k + 1)) := by
  unfold run_in_parallel futures
  simp [List.map_map, Function.comp]

/-- Python max() of a nonempty list returns one of its elements. -/
theorem pymax_mem : ∀ l : List ℚ, l ≠ [] → pymax l ∈ l := by
  intro l
  induction l with
  | nil => intro h; exact absurd rfl h
  | cons x t ih =>
    intro _
    cases t with
    | nil => simp [pymax]
    | cons y u =>
      rw [show pymax (x :: y :: u) = max x (pymax (y :: u)) from rfl]
      rcases max_choice x (pymax (y :: u)) with h | h
      · rw [h]; exact List.mem_cons_self x _
      · rw [h]; exact List.mem_cons_of_mem x (ih (by simp))

/-- Python max() of a list bounds every element from above. -/
theorem le_pymax : ∀ l : List ℚ, ∀ x ∈ l, x ≤ pymax l := by
  intro l
  induction l with
  | nil => simp
  | cons a t ih =>
    intro x hx
    cases t with
    | nil => simp at hx; simp [pymax, hx]
    | cons y u =>
      rw [show pymax (a :: y :: u) = max a (pymax (y :: u)) from rfl]
      rcases List.mem_cons.mp hx with h | h
      · exact h ▸ le_max_left _ _
      · exact le_trans (ih x h) (le_max_right _ _)

/-- Python min() of a nonempty list returns one of its elements. -/
theorem pymin_mem : ∀ l : List ℚ, l ≠ [] → pymin l ∈ l := by
  intro l
  induction l with
  | nil => intro h; exact absurd rfl h
  | cons x t ih =>
    intro _
    cases t with
    | nil => simp [pymin]
    | cons y u =>
      rw [show pymin (x :: y :: u) = min x (pymin (y :: u)) from rfl]
      rcases min_choice x (pymin (y :: u)) with h | h
      · rw [h]; exact List.mem_cons_self x _
      · rw [h]; exact List.mem_cons_of_mem x (ih (by simp))

/-- Python min() of a list bounds every element from below. -/
theorem pymin_le : ∀ l : List ℚ, ∀ x ∈ l, pymin l ≤ x := by
  intro l
  induction l with
  | nil => simp
  | cons a t ih =>
    intro x hx
    cases t with
    | nil => simp at hx; simp [pymin, hx]
    | cons y u =>
      rw [show pymin (a :: y :: u) = min a (pymin (y :: u)) from rfl]
      rcases List.mem_cons.mp hx with h | h
      · exact h ▸ min_le_left _ _
      · exact le_trans (min_le_right _ _) (ih x h)

/-- The request indices shown by the outcomes of a run are 1, 2, ..., num in
order. -/
theorem run_indices (num ts : Nat) (envs : Nat → ReqEnv) (total : ℚ)
    (completion : List Nat) :
    (run_in_parallel num ts envs total completion).outcomes.map
        (fun a => a.line.requestNum)
      = (List.range num).map (· + 1) := by
  rw [run_outcomes_eq, List.map_map]
  exact List.map_congr_left fun k _ => execute_request_requestNum _ _ _

/-- C1: for every positive request count and worker count at least 1, a run
of run_in_parallel produces exactly num outcomes, one per request index
1..num, with no duplicate and no omitted index, whatever the per-request
environments do (including failures). -/
theorem run_produces_each_index_once (num ts : Nat) (envs : Nat → ReqEnv)
    (total : ℚ) (completion : List Nat) (hnum : 1 ≤ num) (hts : 1 ≤ ts) :
    (run_in_parallel num ts envs total completion).outcomes.length = num ∧
    (run_in_parallel num ts envs total completion).outcomes.map
        (fun a => a.line.requestNum)
      = (List.range num).map (· + 1) ∧
    ((run_in_parallel num ts envs total completion).outcomes.map
        (fun a => a.line.requestNum)).Nodup ∧
    ∀ i, i ∈ (run_in_parallel num ts envs total completion).outcomes.map
        (fun a => a.line.requestNum) ↔ 1 ≤ i ∧ i ≤ num := by
  refine ⟨?_, run_indices num ts envs total completion, ?_, ?_⟩
  · rw [run_outcomes_eq]; simp
  · rw [run_indices]
    exact List.Nodup.map (fun a b => by omega) (List.nodup_range num)
  · intro i
    rw [run_indices]
    simp only [List.mem_map, List.mem_range]
    constructor
    · rintro ⟨k, hk, rfl⟩; omega
    · rintro ⟨h1, h2⟩; exact ⟨i - 1, by omega, by omega⟩

/-- The elapsed_times list of a run is the outcomes' return values, and it
has one entry per request. -/
theorem run_elapsed_times (num ts : Nat) (envs : Nat → ReqEnv) (total : ℚ)
    (completion : List Nat) :
    (run_in_parallel num ts envs total completion).elapsed_times
      = (run_in_parallel num ts envs total completion).outcomes.map
          ExecAttempt.ret ∧
    (run_in_parallel num ts envs total completion).elapsed_times.length = num := by
  constructor
  · rfl
  · rw [show (run_in_parallel num ts envs total completion).elapsed_times
        = (run_in_parallel num ts envs total completion).outcomes.map
            ExecAttempt.ret from rfl, run_outcomes_eq]
    simp

/-- C3: the reported mean equals the arithmetic mean of all num recorded
elapsed durations (failed requests included, since every attempt records a
duration), and the reported max and min are a member of and the exact
extremes of that same set. -/
theorem latency_stats_correct (num ts : Nat) (envs : Nat → ReqEnv)
    (total : ℚ) (completion : List Nat) (hnum : 1 ≤ num) :
    (run_in_parallel num ts envs total completion).elapsed_times.length = num ∧
    (run_in_parallel num ts envs total completion).mean_time
      = (run_in_parallel num ts envs total completion).elapsed_times.sum /
        ((run_in_parallel num ts envs total completion).elapsed_times.length : ℚ) ∧
    (run_in_parallel num ts envs total completion).max_time
      ∈ (run_in_parallel num ts envs total completion).elapsed_times ∧
    (∀ x ∈ (run_in_parallel num ts envs total completion).elapsed_times,
      x ≤ (run_in_parallel num ts envs total completion).max_time) ∧
    (run_in_parallel num ts envs total completion).min_time
      ∈ (run_in_parallel num ts envs total completion).elapsed_times ∧
    ∀ x ∈ (run_in_parallel num ts envs total completion).elapsed_times,
      (run_in_parallel num ts envs total completion).min_time ≤ x := by
  obtain ⟨hmap, hlen⟩ := run_elapsed_times num ts envs total completion
  have hne : (run_in_parallel num ts envs total completion).elapsed_times ≠ [] := by
    intro h; rw [h] at hlen; simp at hlen; omega
  refine ⟨hlen, ?_, ?_, ?_, ?_, ?_⟩
  · rw [hlen]; rfl
  · exact pymax_mem _ hne
  · exact le_pymax _
  · exact pymin_mem _ hne
  · exact pymin_le _

/-- Witness for latency_stats_correct at num = 3, ts = 2, with request 2
failing. -/
theorem latency_stats_correct_witness :
    (1 : Nat) ≤ 3 ∧
    ((run_in_parallel 3 2 envs_mixed 9 []).elapsed_times.length = 3 ∧
    (run_in_parallel 3 2 envs_mixed 9 []).mean_time
      = (run_in_parallel 3 2 envs_mixed 9 []).elapsed_times.sum /
        ((run_in_parallel 3 2 envs_mixed 9 []).elapsed_times.length : ℚ) ∧
    (run_in_parallel 3 2 envs_mixed 9 []).max_time
      ∈ (run_in_parallel 3 2 envs_mixed 9 []).elapsed_times ∧
    (∀ x ∈ (run_in_parallel 3 2 envs_mixed 9 []).elapsed_times,
      x ≤ (run_in_parallel 3 2 envs_mixed 9 []).max_time) ∧
    (run_in_parallel 3 2 envs_mixed 9 []).min_time
      ∈ (run_in_parallel 3 2 envs_mixed 9 []).elapsed_times ∧
    ∀ x ∈ (run_in_parallel 3 2 envs_mixed 9 []).elapsed_times,
      (run_in_parallel 3 2 envs_mixed 9 []).min_time ≤ x) :=
  ⟨by decide, latency_stats_correct 3 2 envs_mixed 9 [] (by decide)⟩

/-- Witness for run_produces_each_index_once at num = 3, ts = 2, with
request 2 failing. -/
theorem run_produces_each_index_once_witness :
    (1 : Nat) ≤ 3 ∧ (1 : Nat) ≤ 2 ∧
    ((run_in_parallel 3 2 envs_mixed 9 []).outcomes.length = 3 ∧
    (run_in_parallel 3 2 envs_mixed 9 []).outcomes.map
        (fun a => a.line.requestNum) = (List.range 3).map (· + 1) ∧
    ((run_in_parallel 3 2 envs_mixed 9 []).outcomes.map
        (fun a => a.line.requestNum)).Nodup ∧
    ∀ i, i ∈ (run_in_parallel 3 2 envs_mixed 9 []).outcomes.map
        (fun a => a.line.requestNum) ↔ 1 ≤ i ∧ i ≤ 3) :=
  ⟨by decide, by decide,
    run_produces_each_index_once 3 2 envs_mixed 9 [] (by decide) (by decide)⟩

/-- C4: whatever error the try block of execute_request raises (transport
failure, decode failure, missing field), the bare except converts it into a
returned outcome whose printed line carries the error detail verbatim; and
run_in_parallel still completes every one of its num requests and fills in
every summary quantity, whatever the per-request environments do. -/
theorem errors_contained_in_worker :
    (∀ (rn msg : Nat) (env : ReqEnv) (e : String),
       tryBody rn msg env = .error e →
       execute_request rn msg env
         = { ret := env.tErr, line := .failure rn e env.tErr }) ∧
    ∀ (num ts : Nat) (envs : Nat → ReqEnv) (total : ℚ)
      (completion : List Nat),
      (run_in_parallel num ts envs total completion).outcomes.length = num ∧
      (run_in_parallel num ts envs total completion).elapsed_times.length = num ∧
      summaryOf (run_in_parallel num ts envs total completion)
        = (num, ts, total,
           (run_in_parallel num ts envs total completion).elapsed_times.sum
             / (num : ℚ),
           pymax (run_in_parallel num ts envs total completion).elapsed_times,
           pymin (run_in_parallel num ts envs total completion).elapsed_times) := by
  constructor
  · intro rn msg env e h
    unfold execute_request
    rw [h]
  · intro num ts envs total completion
    refine ⟨?_, (run_elapsed_times num ts envs total completion).2, rfl⟩
    rw [run_outcomes_eq]; simp

/-- Witness for errors_contained_in_worker: a transport failure is returned
as an outcome carrying the exception text, and a 3-request run with that
failing request still yields 3 outcomes and a full summary. -/
theorem errors_contained_in_worker_witness :
    (execute_request 2 2 env_fail5
      = { ret := env_fail5.tErr,
          line := .failure 2 "ConnectionError" env_fail5.tErr }) ∧
    (run_in_parallel 3 2 envs_mixed 9 []).outcomes.length = 3 :=
  ⟨errors_contained_in_worker.1 2 2 env_fail5 "ConnectionError" rfl,
   (errors_contained_in_worker.2 3 2 envs_mixed 9 []).1⟩

/-- C8: the futures list is built in index order - the entry at position
i - 1 is the submission of request i carrying message and expected value i -
and the result of a run does not depend on the order in which the futures
complete, since the results are read back from the futures list itself. -/
theorem deterministic_assignment_order_free :
    (∀ num i : Nat, 1 ≤ i → i ≤ num → (futures num)[i - 1]? = some (i, i)) ∧
    ∀ (num ts : Nat) (envs : Nat → ReqEnv) (total : ℚ)
      (c1 c2 : List Nat),
      run_in_parallel num ts envs total c1 = run_in_parallel num ts envs total c2 := by
  constructor
  · intro num i h1 h2
    rw [futures, List.getElem?_map, List.getElem?_range (by omega)]
    simp; omega
  · intro num ts envs total c1 c2
    rfl

/-- Witness for deterministic_assignment_order_free: in a 3-request run the
second future is the submission of request 2 with message 2, and two runs
differing only in completion order coincide. -/
theorem deterministic_assignment_order_free_witness :
    (1 : Nat) ≤ 2 ∧ (2 : Nat) ≤ 3 ∧ (futures 3)[2 - 1]? = some (2, 2) ∧
    run_in_parallel 3 2 envs_mixed 9 [3, 1, 2]
      = run_in_parallel 3 2 envs_mixed 9 [1, 2, 3] :=
  ⟨by decide, by decide,
   deterministic_assignment_order_free.1 3 2 (by decide) (by decide),
   deterministic_assignment_order_free.2 3 2 envs_mixed 9 [3, 1, 2] [1, 2, 3]⟩

/-- C2 counterexample: two 1-request runs with identical timing, one in
which the response matches and one in which it does not, print identical
summaries even though their numbers of mismatches differ - so the printed
summary carries no mismatch (nor transport-error) count at all. -/
theorem summary_has_no_mismatch_count :
    summaryOf (run_in_parallel 1 1 (fun _ => env_ok 1) 9 [])
      = summaryOf (run_in_parallel 1 1 (fun _ => env_mismatch) 9 []) ∧
    mismatchCount (run_in_parallel 1 1 (fun _ => env_ok 1) 9 []) = 0 ∧
    mismatchCount (run_in_parallel 1 1 (fun _ => env_mismatch) 9 []) = 1 := by
  refine ⟨rfl, rfl, rfl⟩

/-- C2 as amended: the printed summary holds only the request count, thread
count, total elapsed time and mean/max/min durations; mismatches are
flagged only on the per-request lines, and when every request is answered
with status "successful" and a stdout equal to str of its message, no
printed line carries the mismatch marker. -/
theorem zero_mismatch_when_all_match (num ts : Nat) (envs : Nat → ReqEnv)
    (total : ℚ) (completion : List Nat)
    (h : ∀ i, 1 ≤ i → i ≤ num → ∃ data,
      (envs i).net = .ok data ∧
      getStdout data = .ok (.str (toString i)) ∧
      getKey data "status" = .ok (.str "successful")) :
    mismatchCount (run_in_parallel num ts envs total completion) = 0 := by
  unfold mismatchCount
  rw [run_outcomes_eq, List.countP_eq_zero]
  intro a ha
  simp only [List.mem_map, List.mem_range] at ha
  obtain ⟨k, hk, rfl⟩ := ha
  obtain ⟨data, hnet, hout, hst⟩ := h (k + 1) (by omega) (by omega)
  have hmarker :
      tryBody (k + 1) (k + 1) (envs (k + 1))
        = .ok { ret := (envs (k + 1)).tOk,
                line := .result "" (k + 1) (.str "successful")
                  (.str (toString (k + 1))) (k + 1) (envs (k + 1)).tOk } := by
    simp only [tryBody, hnet, hout, hst]
    simp [pyNeStr, pyEqStr]
  simp [execute_request, hmarker, PrintedLine.marker]

/-- Witness for zero_mismatch_when_all_match: a 2-request run in which both
requests echo their message has no flagged line. -/
theorem zero_mismatch_when_all_match_witness :
    mismatchCount (run_in_parallel 2 1 env_ok 9 []) = 0 :=
  zero_mismatch_when_all_match 2 1 env_ok 9 []
    (fun i _ _ => ⟨mkResp (toString i), rfl, rfl, rfl⟩)

/-- C5 counterexample: a response whose stdout field is the JSON number 5,
checked against the expected value 5, is flagged as a mismatch by
execute_request even though both sides have the string representation "5" -
so the comparison does not coerce both sides, only the expected one. -/
theorem verifier_coerces_only_expected :
    (execute_request 1 5 env_num_stdout).line.marker = "[!] " ∧
    verify_spec 5 (Json.num 5) = true := ⟨rfl, rfl⟩

/-- C5 as amended: on a decodable response carrying a stdout field and a
status field, execute_request prints the per-request line with the
distinguishing marker "[!] " exactly when the stdout value, compared as a
Python value, differs from str of the expected message (only the expected
side is coerced to a string; a non-string stdout therefore always counts as
a mismatch); no discrepancy is dropped from the printed line. -/
theorem mismatch_flag_iff_stdout_differs (rn msg : Nat) (env : ReqEnv)
    (data out st : Json) (hnet : env.net = .ok data)
    (hout : getStdout data = .ok out)
    (hst : getKey data "status" = .ok st) :
    (execute_request rn msg env).line
      = .result (if pyNeStr out (toString msg) then "[!] " else "")
          rn st out msg env.tOk ∧
    ((execute_request rn msg env).line.marker = "[!] "
      ↔ pyEqStr out (toString msg) = false) := by
  have hbody : tryBody rn msg env
      = .ok { ret := env.tOk,
              line := .result (if pyNeStr out (toString msg) then "[!] " else "")
                rn st out msg env.tOk } := by
    simp only [tryBody, hnet, hout, hst]
  have hline : (execute_request rn msg env).line
      = .result (if pyNeStr out (toString msg) then "[!] " else "")
          rn st out msg env.tOk := by
    simp [execute_request, hbody]
  refine ⟨hline, ?_⟩
  rw [hline]
  unfold pyNeStr
  cases h : pyEqStr out (toString msg) <;> simp [PrintedLine.marker]

/-- Witness for mismatch_flag_iff_stdout_differs: request 1 expecting "1"
but answered with stdout "zzz" is flagged. -/
theorem mismatch_flag_iff_stdout_differs_witness :
    ((execute_request 1 1 env_mismatch).line
      = .result (if pyNeStr (.str "zzz") (toString 1) then "[!] " else "")
          1 (.str "successful") (.str "zzz") 1 env_mismatch.tOk ∧
    ((execute_request 1 1 env_mismatch).line.marker = "[!] "
      ↔ pyEqStr (.str "zzz") (toString 1) = false)) :=
  mismatch_flag_iff_stdout_differs 1 1 env_mismatch
    (mkResp "zzz") (.str "zzz") (.str "successful") rfl rfl rfl

/-- C6 counterexample: a transport failure whose handler measures 5 seconds
and a successful zero-mismatch request of 5 seconds return equal outcome
values, and the failed request's recorded duration is 5, not a zero or
sentinel value - the recorded duration of a failure is its true elapsed
time and is not distinguished from a successful duration. -/
theorem failed_duration_not_sentinel :
    (execute_request 1 1 env_fail5).ret = (execute_request 1 1 env_ok5).ret ∧
    (execute_request 1 1 env_fail5).ret ≠ 0 := by
  refine ⟨rfl, by norm_num [execute_request, tryBody, env_fail5]⟩

/-- C6 as amended: a failed request is still captured as an outcome, whose
recorded duration is the actual elapsed time measured in the except handler
- the same zero-based clock and the same field a successful request uses
for its own elapsed time - and only the printed line (failure text versus
result line) tells the two apart. -/
theorem failed_duration_is_elapsed :
    (∀ (rn msg : Nat) (env : ReqEnv) (e : String),
       tryBody rn msg env = .error e →
       (execute_request rn msg env).ret = env.tErr ∧
       (execute_request rn msg env).line = .failure rn e env.tErr) ∧
    ∀ (rn msg : Nat) (env : ReqEnv) (a : ExecAttempt),
      tryBody rn msg env = .ok a →
      (execute_request rn msg env).ret = env.tOk := by
  constructor
  · intro rn msg env e h
    unfold execute_request
    rw [h]
    exact ⟨rfl, rfl⟩
  · intro rn msg env a h
    obtain ⟨data, out, st, -, -, -, ha⟩ := tryBody_ok_shape h
    unfold execute_request
    rw [h, ha]

/-- Witness for failed_duration_is_elapsed: the transport failure measured
at 5 seconds records 5 as its duration, and the successful request records
its try-block elapsed time. -/
theorem failed_duration_is_elapsed_witness :
    ((execute_request 1 1 env_fail5).ret = env_fail5.tErr ∧
     (execute_request 1 1 env_fail5).line
       = .failure 1 "ConnectionError" env_fail5.tErr) ∧
    (execute_request 1 1 env_ok5).ret = env_ok5.tOk :=
  ⟨failed_duration_is_elapsed.1 1 1 env_fail5 "ConnectionError" rfl,
   failed_duration_is_elapsed.2 1 1 env_ok5
     { ret := env_ok5.tOk,
       line := .result "" 1 (.str "successful") (.str "1") 1 env_ok5.tOk } rfl⟩

/-- A successful subscript lookup implies the same .get lookup succeeds with
the same value. -/
theorem dictGet_of_getKey {v : Json} {k : String} {x : Json}
    (h : getKey v k = .ok x) : dictGet v k = .ok (some x) := by
  cases v with
  | obj fields =>
    cases hl : fields.lookup k with
    | none => simp [getKey, hl] at h
    | some y =>
      simp only [getKey, hl, Except.ok.injEq] at h
      subst h
      simp [dictGet, hl]
  | str s => simp [getKey] at h
  | num n => simp [getKey] at h
  | boolean b => simp [getKey] at h
  | null => simp [getKey] at h
  | arr elems => simp [getKey] at h

/-- C7: on a response body that carries a status field, send_req classifies
the result as failed - printing the service-reported status value - exactly
when the HTTP code is not 200 or that status is not the string
"successful", and it classifies the result as successful only when both
hold. -/
theorem send_req_classification (code : Nat) (data st : Json)
    (h : getKey data "status" = .ok st) :
    ((send_req (.ok (code, data)) = .failed st)
       ↔ ¬(code = 200 ∧ pyEqStr st "successful" = true)) ∧
    ∀ out, send_req (.ok (code, data)) = .success out →
      code = 200 ∧ pyEqStr st "successful" = true := by
  have hd := dictGet_of_getKey h
  by_cases hc : code = 200 ∧ pyEqStr st "successful" = true
  · have hcond : ((code == 200) && optEqStr (some st) "successful") = true := by
      simp [optEqStr, hc.1, hc.2]
    cases hs : getStdout data with
    | error e =>
      have hr : send_req (.ok (code, data)) = .caught e := by
        simp [send_req, tryRuok, hd, hcond, hs]
      rw [hr]
      exact ⟨by simp [hc], fun out hout => by simp at hout⟩
    | ok out =>
      have hr : send_req (.ok (code, data)) = .success out := by
        simp [send_req, tryRuok, hd, hcond, hs]
      rw [hr]
      exact ⟨by simp [hc], fun o ho => hc⟩
  · have hcond : ((code == 200) && optEqStr (some st) "successful") = false := by
      cases h200 : (code == 200) with
      | false => simp [h200]
      | true =>
        have hcode : code = 200 := by simpa using h200
        have hps : pyEqStr st "successful" = false := by
          cases hps0 : pyEqStr st "successful" with
          | false => rfl
          | true => exact absurd ⟨hcode, hps0⟩ hc
        simp [h200, optEqStr, hps]
    have hr : send_req (.ok (code, data)) = .failed st := by
      simp [send_req, tryRuok, hd, hcond, h]
    rw [hr]
    exact ⟨by simp [hc], fun out hout => by simp at hout⟩

/-- Witness for send_req_classification: HTTP 500 with body status
"failure" is classified as failed carrying that status. -/
theorem send_req_classification_witness :
    getKey (Json.obj [("status", Json.str "failure")]) "status"
      = .ok (.str "failure") ∧
    (((send_req (.ok (500, Json.obj [("status", Json.str "failure")]))
        = .failed (.str "failure"))
       ↔ ¬(500 = 200 ∧ pyEqStr (.str "failure") "successful" = true)) ∧
    ∀ out, send_req (.ok (500, Json.obj [("status", Json.str "failure")]))
        = .success out →
      500 = 200 ∧ pyEqStr (.str "failure") "successful" = true) :=
  ⟨rfl, send_req_classification 500 (Json.obj [("status", Json.str "failure")])
    (.str "failure") rfl⟩


/-- Whether a pattern matches at the head of a list only depends on the
first pattern-length characters. -/
theorem subAt_append (pat : List Char) :
    ∀ a b : List Char, pat.length ≤ a.length → subAt pat (a ++ b) = subAt pat a := by
  induction pat with
  | nil => intro a b _; rfl
  | cons c cs ih =>
    intro a b h
    cases a with
    | nil => simp at h
    | cons d ds =>
      have hrest : subAt cs (ds ++ b) = subAt cs ds := ih ds b (by simpa using h)
      simp [subAt, hrest]

/-- If the marker '%s' does not occur in pre, its first occurrence in
pre ++ '%s' ++ suf is exactly at position pre.length. -/
theorem findIdx0_marker_append (suf : List Char) :
    ∀ pre : List Char, findIdx0 ['%', 's'] pre = none →
      findIdx0 ['%', 's'] (pre ++ '%' :: 's' :: suf) = some pre.length := by
  intro pre
  induction pre with
  | nil => intro _; simp [findIdx0, subAt]
  | cons c pre' ih =>
    intro h
    simp only [findIdx0] at h
    by_cases hs : subAt ['%', 's'] (c :: pre') = true
    · rw [if_pos hs] at h; exact absurd h (by simp)
    · rw [if_neg hs] at h
      have hpre' : findIdx0 ['%', 's'] pre' = none := by
        cases hf : findIdx0 ['%', 's'] pre' with
        | none => rfl
        | some i => rw [hf] at h; simp at h
      have hhead : subAt ['%', 's'] (c :: (pre' ++ '%' :: 's' :: suf)) = false := by
        cases pre' with
        | nil => simp [subAt]
        | cons d pre'' =>
          have hs2 : subAt ['%', 's'] (c :: d :: pre'') = false := by
            cases hb : subAt ['%', 's'] (c :: d :: pre'') with
            | false => rfl
            | true => exact absurd hb hs
          have he : subAt ['%', 's'] (c :: (d :: pre'' ++ '%' :: 's' :: suf))
              = subAt ['%', 's'] (c :: d :: pre'') := by
            simp [subAt]
          rw [List.cons_append] at he ⊢
          rw [he, hs2]
      have hgoal : findIdx0 ['%', 's'] ((c :: pre') ++ '%' :: 's' :: suf)
          = if subAt ['%', 's'] (c :: (pre' ++ '%' :: 's' :: suf)) = true
            then some 0
            else (findIdx0 ['%', 's'] (pre' ++ '%' :: 's' :: suf)).map (· + 1) := by
        rw [List.cons_append]; rfl
      rw [hgoal, hhead, if_neg (by simp), ih hpre', Option.map_some']
      simp

/-- C9 as amended: on a template consisting of text before the first marker
'%s', the marker, and text after it, generate_nix_file writes the leading
text, then all listed package names joined by a newline followed by four
spaces of indentation, then the trailing text. -/
theorem marker_substitution (pre suf : List Char)
    (files : List (List Char × Option (List (List Char))))
    (hpre : findIdx0 ['%', 's'] pre = none) :
    generate_nix_file (pre ++ ['%', 's'] ++ suf) files
      = pre ++ joinSep ("\n    ".toList) (nixPkgsList files) ++ suf := by
  have hfind : findIdx0 ['%', 's'] (pre ++ ['%', 's'] ++ suf) = some pre.length := by
    rw [List.append_assoc]
    exact findIdx0_marker_append suf pre hpre
  have hlen : (pre ++ ['%', 's'] ++ suf).length = pre.length + 2 + suf.length := by
    simp [List.length_append]; omega
  have h1 : pyIdx (pre ++ ['%', 's'] ++ suf).length (pre.length : Int) = pre.length := by
    unfold pyIdx
    rw [if_neg (by omega), hlen]
    simp
    omega
  have h2 : pyIdx (pre ++ ['%', 's'] ++ suf).length ((pre.length : Int) + 2)
      = pre.length + 2 := by
    unfold pyIdx
    rw [if_neg (by omega), hlen]
    have ht : ((pre.length : Int) + 2).toNat = pre.length + 2 := by omega
    rw [ht]
    omega
  have htake : (pre ++ ['%', 's'] ++ suf).take pre.length = pre := by
    rw [List.append_assoc]
    exact List.take_left' rfl
  have hdrop : (pre ++ ['%', 's'] ++ suf).drop (pre.length + 2) = suf :=
    List.drop_left' (by simp)
  simp only [generate_nix_file, pyFind, hfind]
  rw [h1, h2, htake, hdrop]

/-- Witness for marker_substitution on the template "x%sy" with packages a
and b from one YAML descriptor. -/
theorem marker_substitution_witness :
    findIdx0 ['%', 's'] ("x".toList) = none ∧
    generate_nix_file ("x".toList ++ ['%', 's'] ++ "y".toList)
        [("a.yaml".toList, some [['a'], ['b']])]
      = "x".toList ++
        joinSep ("\n    ".toList)
          (nixPkgsList [("a.yaml".toList, some [['a'], ['b']])]) ++
        "y".toList :=
  ⟨by decide,
   marker_substitution ("x".toList) ("y".toList)
     [("a.yaml".toList, some [['a'], ['b']])] (by decide)⟩

/-- C9 counterexample: on template "x%sy" with package list [a, b] the file
written is "xa\n    by" - the packages are joined by a newline plus four
spaces of indentation - while a plain newline join as the claim words it
would give "xa\nby". -/
theorem join_uses_indented_newline :
    generate_nix_file ("x%sy".toList) [("a.yaml".toList, some [['a'], ['b']])]
      = "xa\n    by".toList ∧
    substitute_spec ("x".toList) ("y".toList) [['a'], ['b']] = "xa\nby".toList ∧
    generate_nix_file ("x%sy".toList) [("a.yaml".toList, some [['a'], ['b']])]
      ≠ substitute_spec ("x".toList) ("y".toList) [['a'], ['b']] := by
  refine ⟨rfl, rfl, by decide⟩

/-- C10 counterexample: on the two-character marker-free template "ab" with
no package files, the written output is "ab" - identical to the template -
so a marker-free template is not always rewritten to something different. -/
theorem no_marker_can_reproduce_template :
    findIdx0 ['%', 's'] ("ab".toList) = none ∧
    generate_nix_file ("ab".toList) [] = "ab".toList := by
  refine ⟨by decide, rfl⟩

/-- C10 as amended: when the template has no '%s' marker, generate_nix_file
does not fail: find returns -1, and Python slice semantics make the output
the template minus its final character, then the joined package list, then
the template from its second character onward (an output that can even
coincide with the template itself, as on a two-character template with no
packages). -/
theorem no_marker_slicing (template : List Char)
    (files : List (List Char × Option (List (List Char))))
    (h : findIdx0 ['%', 's'] template = none) :
    pyFind template ['%', 's'] = -1 ∧
    generate_nix_file template files
      = template.dropLast ++ joinSep ("\n    ".toList) (nixPkgsList files) ++
        template.drop 1 := by
  have hfind : pyFind template ['%', 's'] = -1 := by
    unfold pyFind; rw [h]
  refine ⟨hfind, ?_⟩
  have h1 : pyIdx template.length (-1) = template.length - 1 := by
    unfold pyIdx
    rw [if_pos (by omega)]
    omega
  have h2 : pyIdx template.length (-1 + 2) = min template.length 1 := by
    unfold pyIdx
    rw [if_neg (by omega)]
    rfl
  have hdrop : template.drop (min template.length 1) = template.drop 1 := by
    cases template with
    | nil => rfl
    | cons c t => rw [Nat.min_eq_right (by simp)]
  simp only [generate_nix_file, hfind]
  rw [show (-1 : Int) + 2 = 1 from rfl]
  rw [show pyIdx template.length (-1) = template.length - 1 from h1]
  rw [show pyIdx template.length 1 = min template.length 1 from h2]
  rw [hdrop, ← List.dropLast_eq_take]

/-- Witness for no_marker_slicing on the marker-free template "hello" with
one package. -/
theorem no_marker_slicing_witness :
    findIdx0 ['%', 's'] ("hello".toList) = none ∧
    (pyFind ("hello".toList) ['%', 's'] = -1 ∧
     generate_nix_file ("hello".toList) [("a.yaml".toList, some [['g', 'o']])]
       = ("hello".toList).dropLast ++
         joinSep ("\n    ".toList)
           (nixPkgsList [("a.yaml".toList, some [['g', 'o']])]) ++
         ("hello".toList).drop 1) :=
  ⟨by decide, no_marker_slicing ("hello".toList)
    [("a.yaml".toList, some [['g', 'o']])] (by decide)⟩
